import Mathlib

/-!
Shallow embedding of the novel_search CLI (src/main.rs): a client of the
Open Library API. The JSON handling follows serde_json semantics: indexing
a non-object or a missing key yields the JSON null value, and the methods
as_str and as_array return options. Rust panics (unwrap on None, indexing
an empty vector, remainder by zero) are modelled explicitly: per-document
processing returns an aborted marker, and whole-display functions return
an Output that is either a successful list of printed lines or a panicked
marker carrying the lines printed before the abort.
-/

namespace NovelSearch

/-- JSON values as serde_json represents them. Objects keep their fields as
an association list; lookup takes the first binding of a key. -/
inductive Json where
  | null
  | bool (b : Bool)
  | num (n : Int)
  | str (s : String)
  | arr (elems : List Json)
  | obj (fields : List (String × Json))

/-- First binding of a key in an object field list. -/
def lookupField (k : String) : List (String × Json) → Option Json
  | [] => none
  | f :: fs => if f.1 = k then some f.2 else lookupField k fs

/-- Indexing a JSON value by a string key, as the serde_json Index trait
does: a missing key or a non-object yields null. -/
def Json.index (j : Json) (k : String) : Json :=
  match j with
  | .obj fs => (lookupField k fs).getD .null
  | _ => .null

/-- The as_str method of serde_json. -/
def Json.asStr : Json → Option String
  | .str s => some s
  | _ => none

/-- The as_array method of serde_json. -/
def Json.asArr : Json → Option (List Json)
  | .arr xs => some xs
  | _ => none

/-- The divider line printed between records: fifty dashes. -/
def dashes : String := String.mk (List.replicate 50 '-')

/-- Result of a whole display function: either every line was printed and
the function returned, or a panic aborted it after printing the lines
carried by the panicked constructor. -/
inductive Output where
  | ok (lines : List String)
  | panicked (lines : List String)

/-- Whether an Output is a panic. -/
def Output.isPanicked : Output → Bool
  | .ok _ => false
  | .panicked _ => true

/-- Result of processing one document in the display_books loop: skipped
(continue on a missing title), aborted (a panic: missing key, an empty
author_name or isbn array indexed at 0, or a non-string first isbn), or a
block of lines to print. -/
inductive DocRes where
  | skip
  | aborted
  | block (lines : List String)

/-- The one-element vector substituted when author_name or isbn is absent. -/
def unknownVec : List Json := [Json.str "Unknown"]

/-- The body of the display_books for-loop for one document, in source
order: title (continue when not a string), author_name (substitute the
Unknown vector when absent, index 0 panics on an empty vector), isbn array
(same substitution), key (unwrap panics when not a string), first isbn
element (unwrap panics when not a string), then the printed lines. -/
def process_doc (doc : Json) : DocRes :=
  match (doc.index "title").asStr with
  | none => .skip
  | some title =>
    let authorArr := match (doc.index "author_name").asArr with
      | some a => a
      | none => unknownVec
    match authorArr with
    | [] => .aborted
    | a0 :: _ =>
      let author := (a0.asStr).getD "Unknown"
      let isbnArr := match (doc.index "isbn").asArr with
        | some a => a
        | none => unknownVec
      match (doc.index "key").asStr with
      | none => .aborted
      | some key =>
        match isbnArr with
        | [] => .aborted
        | i0 :: _ =>
          match i0.asStr with
          | none => .aborted
          | some isbn =>
            .block ["Title: " ++ title, "Author: " ++ author,
                    "ISBN: " ++ isbn,
                    "URL: " ++ "https://openlibrary.org" ++ key, dashes]

/-- The display_books loop over the documents, accumulating printed lines;
a trailing divider is printed after the loop. -/
def display_books_go : List Json → List String → Output
  | [], acc => .ok (acc ++ [dashes])
  | d :: ds, acc =>
    match process_doc d with
    | .skip => display_books_go ds acc
    | .aborted => .panicked acc
    | .block ls => display_books_go ds (acc ++ ls)

/-- Header and loop of display_books once the document list is in hand:
the count printed in the header is the raw length of the list, taken
before any per-document filtering. -/
def display_docs (docs : List Json) : Output :=
  display_books_go docs
    ["Found " ++ toString docs.length ++ " books", dashes, dashes]

/-- The display_books function: take the docs array, fall back to the
works array, and unwrap (panic) when neither is an array. -/
def display_books (api : Json) : Output :=
  match (api.index "docs").asArr with
  | some docs => display_docs docs
  | none =>
    match (api.index "works").asArr with
    | some docs => display_docs docs
    | none => .panicked []

/-- The display_subject_titles loop: each work must have a string title
(unwrap panics otherwise); a title line and a blank line are printed per
work. -/
def display_subject_go : List Json → List String → Output
  | [], acc => .ok acc
  | w :: ws, acc =>
    match (w.index "title").asStr with
    | none => .panicked acc
    | some t => display_subject_go ws (acc ++ ["Title: " ++ t, ""])

/-- The display_subject_titles function: unwrap the works array (panic
when absent or not an array), then the loop. -/
def display_subject_titles (api : Json) : Output :=
  match (api.index "works").asArr with
  | none => .panicked []
  | some works => display_subject_go works []

/-- ISBN selection in display_isbn_books: prefer identifiers.isbn_10 when
it is a string, else identifiers.isbn_13, else the literal Unknown. -/
def pickIsbn (data : Json) : String :=
  match ((data.index "identifiers").index "isbn_10").asStr with
  | some isbn => isbn
  | none => (((data.index "identifiers").index "isbn_13").asStr).getD "Unknown"

/-- The author-name mapping of display_isbn_books: every author object
must have a string name field (unwrap panics otherwise). -/
def author_names_of : List Json → Option (List String)
  | [] => some []
  | a :: rest =>
    match (a.index "name").asStr with
    | none => none
    | some n => (author_names_of rest).map (fun ns => n :: ns)

/-- The body of the display_isbn_books for-loop for one item: itemURL and
fromRecord are unwrapped (panic when not strings), the record data is
joined through the records map, title and authors are unwrapped, and the
block of lines is produced. none models a panic. -/
def process_item (api : Json) (item : Json) : Option (List String) :=
  match (item.index "itemURL").asStr with
  | none => none
  | some url =>
    match (item.index "fromRecord").asStr with
    | none => none
    | some fromRecord =>
      let data := ((api.index "records").index fromRecord).index "data"
      match (data.index "title").asStr with
      | none => none
      | some title =>
        match (data.index "authors").asArr with
        | none => none
        | some authors =>
          match author_names_of authors with
          | none => none
          | some names =>
            some ["Title: " ++ title,
                  "Authors: " ++ String.intercalate ", " names,
                  "ISBN: " ++ pickIsbn data, "URL: " ++ url, dashes]

/-- The display_isbn_books loop over the items. -/
def display_isbn_go (api : Json) : List Json → List String → Output
  | [], acc => .ok (acc ++ [dashes])
  | it :: its, acc =>
    match process_item api it with
    | none => .panicked acc
    | some ls => display_isbn_go api its (acc ++ ls)

/-- The display_isbn_books function: unwrap the items array (panic when
absent), print the match count, then the loop. -/
def display_isbn_books (api : Json) : Output :=
  match (api.index "items").asArr with
  | none => .panicked []
  | some items =>
    display_isbn_go api items
      ["Found " ++ toString items.length ++ " matches", dashes, dashes]

/-- The get_random_book_title function, with the random u32 draw passed in
as r. The works array is unwrapped (panic when absent); the length is cast
to u32; the remainder operation panics (none) when that length is zero;
otherwise the selected element must have a string title (unwrap). -/
def get_random_book_title (r : Nat) (api : Json) : Option String :=
  match (api.index "works").asArr with
  | none => none
  | some books =>
    let len32 := books.length % 2 ^ 32
    if len32 = 0 then none
    else
      let idx := (r % 2 ^ 32) % len32
      ((books.getD idx Json.null).index "title").asStr

/-- Outcome of a transport plus body-decoding step, abstracting reqwest
and serde_json: a transport error, a body that is not valid JSON (with the
decoding error message), or a decoded JSON value. -/
inductive Fetched where
  | transportErr
  | badJson (msg : String)
  | jsonOk (v : Json)

/-- The search_name function over an abstract fetch outcome: both the
transport-error arm and the JSON-decoding-error arm print one line naming
the query and exit with code 1 (modelled as the error side); a decoded
body is returned. -/
def search_name (name : String) (f : Fetched) : Except (List String) Json :=
  match f with
  | .transportErr => .error ["No books found with the name: " ++ name]
  | .badJson _ => .error ["No books found with the name: " ++ name]
  | .jsonOk v => .ok v

/-- The search_subject function over an abstract fetch outcome: the
transport-error arm prints one line and exits 1; the JSON-decoding-error
arm prints the same line and then the decoder error message, two lines in
all, before exiting 1. -/
def search_subject (subject : String) (f : Fetched) : Except (List String) Json :=
  match f with
  | .transportErr => .error ["No books found with the subject: " ++ subject]
  | .badJson e => .error ["No books found with the subject: " ++ subject, e]
  | .jsonOk v => .ok v

/-- Outcome of a whole command run: normal termination with exit code 0,
termination through std process exit with code 1 after printing the error
lines, or a panic after printing the carried lines. -/
inductive ProcOutcome where
  | exitOk (lines : List String)
  | exitErr (lines : List String)
  | panicked (lines : List String)

/-- The name-search command path of main: search_name then display_books. -/
def run_name_search (name : String) (f : Fetched) : ProcOutcome :=
  match search_name name f with
  | .error ls => .exitErr ls
  | .ok v =>
    match display_books v with
    | .ok ls => .exitOk ls
    | .panicked ls => .panicked ls

/-- The default of the limit argument of the Search command, from the clap
attribute default_value = 2; no positivity validation is configured. -/
def limitDefault : Int := 2

/-- The URL built by search_name for a query and limit; the limit is
embedded verbatim. -/
def search_name_url (name : String) (limit : Int) : String :=
  "https://openlibrary.org/search.json?title=" ++ name ++ "&limit=" ++
    toString limit

/-- Lowercasing of the subject string, as the to_lowercase call does
(modelled over the character list; ASCII range). -/
def lowercase (s : String) : String := String.mk (s.data.map Char.toLower)

/-- The URL built by search_subject: the subject is lowercased and the
limit embedded verbatim. -/
def search_subject_url (subject : String) (limit : Int) : String :=
  "https://openlibrary.org/subjects/" ++ lowercase subject ++ ".json?limit=" ++
    toString limit

/-- Whether a document has a string title, the condition under which the
display_books loop does not skip it. -/
def hasTitle (d : Json) : Bool := ((d.index "title").asStr).isSome

/-- Well-formedness of one name-search document, the exact condition under
which process_doc neither skips nor panics: a string title, a string key,
a non-empty author_name array when one is present, and a non-empty isbn
array with a string first element when one is present. -/
def wfDoc (d : Json) : Bool :=
  ((d.index "title").asStr).isSome &&
  ((d.index "key").asStr).isSome &&
  (match (d.index "author_name").asArr with
   | some a => !a.isEmpty
   | none => true) &&
  (match (d.index "isbn").asArr with
   | some a => match a with
     | [] => false
     | i0 :: _ => (i0.asStr).isSome
   | none => true)

/-- The block of lines display_books prints for a well-formed document. -/
def docBlock (d : Json) : List String :=
  ["Title: " ++ (((d.index "title").asStr).getD ""),
   "Author: " ++ (match (d.index "author_name").asArr with
     | some a => ((a.headD (Json.str "Unknown")).asStr).getD "Unknown"
     | none => "Unknown"),
   "ISBN: " ++ (match (d.index "isbn").asArr with
     | some a => ((a.headD Json.null).asStr).getD ""
     | none => "Unknown"),
   "URL: " ++ "https://openlibrary.org" ++ (((d.index "key").asStr).getD ""),
   dashes]

/-! Helper lemmas about the display_books loop. -/

/-- A document without a string title is skipped by the loop body. -/
theorem process_doc_skip (d : Json) (h : hasTitle d = false) :
    process_doc d = DocRes.skip := by
  unfold hasTitle at h
  unfold process_doc
  cases ht : (d.index "title").asStr with
  | none => rfl
  | some t => rw [ht] at h; simp at h

/-- A well-formed document has a string title. -/
theorem wf_hasTitle (d : Json) (h : wfDoc d = true) : hasTitle d = true := by
  unfold wfDoc at h
  unfold hasTitle
  simp only [Bool.and_eq_true] at h
  exact h.1.1.1

/-- A well-formed document produces exactly its block of lines. -/
theorem process_doc_block (d : Json) (h : wfDoc d = true) :
    process_doc d = DocRes.block (docBlock d) := by
  unfold wfDoc at h
  simp only [Bool.and_eq_true] at h
  obtain ⟨⟨⟨ht, hk⟩, ha⟩, hi⟩ := h
  cases ht' : (d.index "title").asStr with
  | none => rw [ht'] at ht; simp at ht
  | some t =>
    cases hk' : (d.index "key").asStr with
    | none => rw [hk'] at hk; simp at hk
    | some k =>
      cases ha' : (d.index "author_name").asArr with
      | none =>
        cases hi' : (d.index "isbn").asArr with
        | none =>
          simp only [process_doc, docBlock, ht', hk', ha', hi', unknownVec]
          rfl
        | some i =>
          rw [hi'] at hi
          cases i with
          | nil => simp at hi
          | cons i0 irest =>
            cases hi0 : i0.asStr with
            | none => simp [hi0] at hi
            | some s =>
              simp only [process_doc, docBlock, ht', hk', ha', hi', unknownVec,
                List.headD_cons, hi0]
              rfl
      | some a =>
        rw [ha'] at ha
        cases a with
        | nil => simp at ha
        | cons a0 arest =>
          cases hi' : (d.index "isbn").asArr with
          | none =>
            simp only [process_doc, docBlock, ht', hk', ha', hi', unknownVec]
            rfl
          | some i =>
            rw [hi'] at hi
            cases i with
            | nil => simp at hi
            | cons i0 irest =>
              cases hi0 : i0.asStr with
              | none => simp [hi0] at hi
              | some s =>
                simp only [process_doc, docBlock, ht', hk', ha', hi', unknownVec,
                  List.headD_cons, hi0]
                rfl

/-- The display_books loop, when every titled document is well formed,
prints exactly the blocks of the titled documents, in order, followed by
the trailing divider. -/
theorem display_books_go_ok (docs : List Json) (acc : List String)
    (h : ∀ d ∈ docs, hasTitle d = true → wfDoc d = true) :
    display_books_go docs acc =
      Output.ok (acc ++ ((docs.filter hasTitle).map docBlock).flatten ++ [dashes]) := by
  induction docs generalizing acc with
  | nil => simp [display_books_go]
  | cons d ds ih =>
    have hrest : ∀ x ∈ ds, hasTitle x = true → wfDoc x = true :=
      fun x hx => h x (List.mem_cons_of_mem _ hx)
    have step : display_books_go (d :: ds) acc =
        match process_doc d with
        | .skip => display_books_go ds acc
        | .aborted => .panicked acc
        | .block ls => display_books_go ds (acc ++ ls) := rfl
    cases hT : hasTitle d with
    | false =>
      have step2 : display_books_go (d :: ds) acc = display_books_go ds acc := by
        rw [step, process_doc_skip d hT]
      rw [step2, ih acc hrest]
      simp [List.filter_cons, hT]
    | true =>
      have hwf := h d (List.mem_cons_self d ds) hT
      have step2 : display_books_go (d :: ds) acc =
          display_books_go ds (acc ++ docBlock d) := by
        rw [step, process_doc_block d hwf]
      rw [step2, ih (acc ++ docBlock d) hrest]
      simp [List.filter_cons, hT, List.append_assoc]

/-- Lookup in an object with pairwise distinct keys is invariant under
permutation of the field list. -/
theorem lookupField_perm (k : String) (fs gs : List (String × Json))
    (hp : fs.Perm gs) (hnd : (fs.map Prod.fst).Nodup) :
    lookupField k fs = lookupField k gs := by
  induction hp with
  | nil => rfl
  | cons x h ih =>
    simp only [List.map_cons, List.nodup_cons] at hnd
    simp only [lookupField]
    rw [ih hnd.2]
  | swap x y l =>
    simp only [List.map_cons, List.nodup_cons, List.mem_cons] at hnd
    have hne : y.1 ≠ x.1 := fun e => hnd.1 (Or.inl e)
    simp only [lookupField]
    by_cases hy : y.1 = k
    · by_cases hx : x.1 = k
      · exact absurd (hy.trans hx.symm) hne
      · simp [hy, hx]
    · by_cases hx : x.1 = k
      · simp [hy, hx]
      · simp [hy, hx]
  | trans h1 h2 ih1 ih2 =>
    have hnd2 := ((h1.map Prod.fst).nodup hnd)
    rw [ih1 hnd, ih2 hnd2]

/-- The display_subject_titles loop panics as soon as it reaches a work
without a string title. -/
theorem display_subject_go_panics (ws : List Json) (acc : List String)
    (h : ∃ w ∈ ws, (w.index "title").asStr = none) :
    (display_subject_go ws acc).isPanicked = true := by
  induction ws generalizing acc with
  | nil => simp at h
  | cons w ws ih =>
    obtain ⟨w', hw', ht'⟩ := h
    have step : display_subject_go (w :: ws) acc =
        match (w.index "title").asStr with
        | none => Output.panicked acc
        | some t => display_subject_go ws (acc ++ ["Title: " ++ t, ""]) := rfl
    cases ht : (w.index "title").asStr with
    | none =>
      rw [step, ht]
      rfl
    | some t =>
      have step2 : display_subject_go (w :: ws) acc =
          display_subject_go ws (acc ++ ["Title: " ++ t, ""]) := by rw [step, ht]
      rw [step2]
      rcases List.mem_cons.mp hw' with rfl | hmem
      · rw [ht] at ht'; exact absurd ht' (by simp)
      · exact ih _ ⟨w', hmem, ht'⟩

/-! Claim theorems. -/

/-- C1, counterexample: a single document without a title is skipped by
the body yet counted in the header, so the header reports one book while
zero record blocks are printed; the claim that such a document is excluded
from the printed count is false. -/
theorem c1_counterexample :
    display_books (Json.obj [("docs", Json.arr [Json.obj []])]) =
      Output.ok ["Found 1 books", dashes, dashes, dashes] := rfl

/-- C1, amended: a document without a string title is excluded from the
printed record blocks, but the Found-N-books header still counts it: the
header reports the raw length of the docs array, taken before the
title filtering, while the body prints blocks only for titled documents. -/
theorem c1_count_before_filter (docs : List Json)
    (h : ∀ d ∈ docs, hasTitle d = true → wfDoc d = true) :
    display_books (Json.obj [("docs", Json.arr docs)]) =
      Output.ok ((["Found " ++ toString docs.length ++ " books", dashes, dashes] ++
        ((docs.filter hasTitle).map docBlock).flatten) ++ [dashes]) := by
  have hd : display_books (Json.obj [("docs", Json.arr docs)]) =
      display_books_go docs
        ["Found " ++ toString docs.length ++ " books", dashes, dashes] := rfl
  rw [hd, display_books_go_ok docs _ h]

/-- C1, witness: two documents, one untitled and one well formed; the
header counts both while only one block is printed. -/
theorem c1_count_before_filter_witness :
    display_books (Json.obj [("docs", Json.arr
        [Json.obj [], Json.obj [("title", Json.str "A"), ("key", Json.str "/kA")]])]) =
      Output.ok ["Found 2 books", dashes, dashes, "Title: A", "Author: Unknown",
        "ISBN: Unknown", "URL: https://openlibrary.org/kA", dashes, dashes] :=
  c1_count_before_filter _ (by decide)

/-- C2: on a subject listing whose works array is empty, the random title
selection panics (the remainder of the random draw by the zero length, a
remainder-by-zero panic, modelled as none) for every value of the random
draw, rather than failing with a NoResultsError message and exit code 1 as
the claim states. -/
theorem c2_empty_works_panics (r : Nat) :
    get_random_book_title r (Json.obj [("works", Json.arr [])]) = none := rfl

/-- C3: a valid-JSON name-search response with no results array makes
display_books panic via unwrap, with no one-line message and no exit
code 1, refuting the claim for the missing-results-array case; transport
failures and undecodable bodies do print one line naming the query and
exit with code 1, an empty docs array succeeds with exit code 0, and a
subject-search decode failure prints two lines, not one. -/
theorem c3_error_paths :
    run_name_search "x" (Fetched.jsonOk (Json.obj [])) = ProcOutcome.panicked []
    ∧ run_name_search "x" Fetched.transportErr =
        ProcOutcome.exitErr ["No books found with the name: x"]
    ∧ run_name_search "x" (Fetched.badJson "expected value at line 1 column 1") =
        ProcOutcome.exitErr ["No books found with the name: x"]
    ∧ run_name_search "ok" (Fetched.jsonOk (Json.obj [("docs", Json.arr [])])) =
        ProcOutcome.exitOk ["Found 0 books", dashes, dashes, dashes]
    ∧ search_subject "s" (Fetched.badJson "expected value at line 1 column 1") =
        Except.error ["No books found with the subject: s",
          "expected value at line 1 column 1"] :=
  ⟨rfl, rfl, rfl, rfl, rfl⟩

/-- C4: a single malformed record aborts the whole batch instead of being
skipped: a name-search document with a title but no key panics before the
following well-formed document is printed, and an ISBN item without a
fromRecord field panics the whole items loop. -/
theorem c4_malformed_record_aborts_batch :
    display_books (Json.obj [("docs", Json.arr
        [Json.obj [("title", Json.str "C")],
         Json.obj [("title", Json.str "D"), ("key", Json.str "/kD")]])]) =
      Output.panicked ["Found 2 books", dashes, dashes]
    ∧ display_isbn_books (Json.obj
        [("items", Json.arr [Json.obj [("itemURL", Json.str "http://u")]]),
         ("records", Json.obj [])]) =
      Output.panicked ["Found 1 matches", dashes, dashes] :=
  ⟨rfl, rfl⟩

/-- C5, counterexample: a document that has a title but no key makes
display_books panic right after the header, so a response of one titled
document does not print one record block as the claim states. -/
theorem c5_counterexample :
    display_books (Json.obj [("docs", Json.arr [Json.obj [("title", Json.str "A")]])]) =
      Output.panicked ["Found 1 books", dashes, dashes] := rfl

/-- C5, amended: for a response of N documents that each have a string
title and a string key, with any author_name array present non-empty and
any isbn array present non-empty with a string first element,
display_books prints the Found-N-books header and exactly N record
blocks, one per document, in order. -/
theorem c5_all_wf_blocks (docs : List Json) (h : ∀ d ∈ docs, wfDoc d = true) :
    display_books (Json.obj [("docs", Json.arr docs)]) =
      Output.ok ((["Found " ++ toString docs.length ++ " books", dashes, dashes] ++
        (docs.map docBlock).flatten) ++ [dashes]) := by
  have hd : display_books (Json.obj [("docs", Json.arr docs)]) =
      display_books_go docs
        ["Found " ++ toString docs.length ++ " books", dashes, dashes] := rfl
  rw [hd, display_books_go_ok docs _ (fun d hd2 _ => h d hd2),
    List.filter_eq_self.mpr (fun d hd2 => wf_hasTitle d (h d hd2))]

/-- C5, witness: one well-formed document prints a header counting one
book and exactly one block. -/
theorem c5_all_wf_blocks_witness :
    display_books (Json.obj [("docs", Json.arr
        [Json.obj [("title", Json.str "B"), ("key", Json.str "/kB")]])]) =
      Output.ok ["Found 1 books", dashes, dashes, "Title: B", "Author: Unknown",
        "ISBN: Unknown", "URL: https://openlibrary.org/kB", dashes, dashes] :=
  c5_all_wf_blocks _ (by decide)

/-- C6: the printed ISBN of an ISBN-search record prefers isbn_10 when the
identifiers object holds it as a string, falls back to isbn_13 when
isbn_10 is absent, and to the literal Unknown when both are absent; and
for identifiers objects with pairwise distinct keys the selection is
invariant under permutation of the field order. -/
theorem c6_isbn_preference (fs gs : List (String × Json)) (s t : String)
    (hp : fs.Perm gs) (hnd : (fs.map Prod.fst).Nodup) :
    pickIsbn (Json.obj [("identifiers", Json.obj fs)]) =
      pickIsbn (Json.obj [("identifiers", Json.obj gs)])
    ∧ (lookupField "isbn_10" fs = some (Json.str s) →
        pickIsbn (Json.obj [("identifiers", Json.obj fs)]) = s)
    ∧ (lookupField "isbn_10" fs = none →
        lookupField "isbn_13" fs = some (Json.str t) →
        pickIsbn (Json.obj [("identifiers", Json.obj fs)]) = t)
    ∧ (lookupField "isbn_10" fs = none → lookupField "isbn_13" fs = none →
        pickIsbn (Json.obj [("identifiers", Json.obj fs)]) = "Unknown") := by
  have hobj : ∀ hs : List (String × Json),
      pickIsbn (Json.obj [("identifiers", Json.obj hs)]) =
        match ((lookupField "isbn_10" hs).getD Json.null).asStr with
        | some isbn => isbn
        | none => (((lookupField "isbn_13" hs).getD Json.null).asStr).getD "Unknown" :=
    fun hs => rfl
  refine ⟨?_, ?_, ?_, ?_⟩
  · rw [hobj fs, hobj gs, lookupField_perm "isbn_10" fs gs hp hnd,
      lookupField_perm "isbn_13" fs gs hp hnd]
  · intro h10
    rw [hobj fs, h10]
    rfl
  · intro h10 h13
    rw [hobj fs, h10, h13]
    rfl
  · intro h10 h13
    rw [hobj fs, h10, h13]
    rfl

/-- C6, witness: an identifiers object holding both fields, against its
own permutation with the two fields swapped. -/
theorem c6_isbn_preference_witness :
    pickIsbn (Json.obj [("identifiers", Json.obj
        [("isbn_10", Json.str "0441013597"), ("isbn_13", Json.str "9780441013593")])]) =
      pickIsbn (Json.obj [("identifiers", Json.obj
        [("isbn_13", Json.str "9780441013593"), ("isbn_10", Json.str "0441013597")])])
    ∧ (lookupField "isbn_10"
          [("isbn_10", Json.str "0441013597"), ("isbn_13", Json.str "9780441013593")] =
        some (Json.str "0441013597") →
        pickIsbn (Json.obj [("identifiers", Json.obj
          [("isbn_10", Json.str "0441013597"), ("isbn_13", Json.str "9780441013593")])]) =
          "0441013597")
    ∧ (lookupField "isbn_10"
          [("isbn_10", Json.str "0441013597"), ("isbn_13", Json.str "9780441013593")] =
          none →
        lookupField "isbn_13"
          [("isbn_10", Json.str "0441013597"), ("isbn_13", Json.str "9780441013593")] =
          some (Json.str "9780441013593") →
        pickIsbn (Json.obj [("identifiers", Json.obj
          [("isbn_10", Json.str "0441013597"), ("isbn_13", Json.str "9780441013593")])]) =
          "9780441013593")
    ∧ (lookupField "isbn_10"
          [("isbn_10", Json.str "0441013597"), ("isbn_13", Json.str "9780441013593")] =
          none →
        lookupField "isbn_13"
          [("isbn_10", Json.str "0441013597"), ("isbn_13", Json.str "9780441013593")] =
          none →
        pickIsbn (Json.obj [("identifiers", Json.obj
          [("isbn_10", Json.str "0441013597"), ("isbn_13", Json.str "9780441013593")])]) =
          "Unknown") :=
  c6_isbn_preference _ _ "0441013597" "9780441013593"
    (List.Perm.swap ("isbn_13", Json.str "9780441013593")
      ("isbn_10", Json.str "0441013597") []) (by decide)

/-- C7: a document whose isbn field is present as an empty array makes
display_books panic (the index of the empty vector at zero) instead of
printing Unknown, refuting the no-failure part of the claim; an absent
isbn field does print Unknown, and a present non-empty array prints its
first element. -/
theorem c7_empty_isbn_array_panics :
    display_books (Json.obj [("docs", Json.arr
        [Json.obj [("title", Json.str "T7"), ("key", Json.str "/k7"),
          ("isbn", Json.arr [])]])]) =
      Output.panicked ["Found 1 books", dashes, dashes]
    ∧ display_books (Json.obj [("docs", Json.arr
        [Json.obj [("title", Json.str "T7b"), ("key", Json.str "/k7b")]])]) =
      Output.ok ["Found 1 books", dashes, dashes, "Title: T7b", "Author: Unknown",
        "ISBN: Unknown", "URL: https://openlibrary.org/k7b", dashes, dashes]
    ∧ display_books (Json.obj [("docs", Json.arr
        [Json.obj [("title", Json.str "T7c"), ("key", Json.str "/k7c"),
          ("isbn", Json.arr [Json.str "111", Json.str "222"])]])]) =
      Output.ok ["Found 1 books", dashes, dashes, "Title: T7c", "Author: Unknown",
        "ISBN: 111", "URL: https://openlibrary.org/k7c", dashes, dashes] :=
  ⟨rfl, rfl, rfl⟩

/-- C8: a document whose author_name field is present as an empty array
makes display_books panic (the index of the empty vector at zero) instead
of printing Author Unknown, refuting the empty-array part of the claim; an
absent author_name does print Unknown, and a present non-empty array
prints its first element. -/
theorem c8_empty_author_array_panics :
    display_books (Json.obj [("docs", Json.arr
        [Json.obj [("title", Json.str "T8"), ("key", Json.str "/k8"),
          ("author_name", Json.arr [])]])]) =
      Output.panicked ["Found 1 books", dashes, dashes]
    ∧ display_books (Json.obj [("docs", Json.arr
        [Json.obj [("title", Json.str "T8b"), ("key", Json.str "/k8b")]])]) =
      Output.ok ["Found 1 books", dashes, dashes, "Title: T8b", "Author: Unknown",
        "ISBN: Unknown", "URL: https://openlibrary.org/k8b", dashes, dashes]
    ∧ display_books (Json.obj [("docs", Json.arr
        [Json.obj [("title", Json.str "T8c"), ("key", Json.str "/k8c"),
          ("author_name", Json.arr [Json.str "X", Json.str "Y"])]])]) =
      Output.ok ["Found 1 books", dashes, dashes, "Title: T8c", "Author: X",
        "ISBN: Unknown", "URL: https://openlibrary.org/k8c", dashes, dashes] :=
  ⟨rfl, rfl, rfl⟩

/-- C9, counterexample: the program builds and issues a name-search URL
for the limit zero, a non-positive value, with no validation; the claim
that no query with a non-positive limit is issued is false. -/
theorem c9_counterexample :
    search_name_url "x" 0 = "https://openlibrary.org/search.json?title=x&limit=0"
    ∧ ¬ ((0 : Int) < 0) :=
  ⟨rfl, by decide⟩

/-- C9, amended: the limit defaults to 2, a positive value, when the user
supplies none, but the program performs no positivity validation: any
user-supplied limit, non-positive ones included, is embedded verbatim in
the issued name-search and subject-search URLs. -/
theorem c9_limit_passthrough (limit : Int) (_h : limit ≤ 0) :
    (0 : Int) < limitDefault
    ∧ search_name_url "q" limit =
        "https://openlibrary.org/search.json?title=q&limit=" ++ toString limit
    ∧ search_subject_url "s" limit =
        "https://openlibrary.org/subjects/s.json?limit=" ++ toString limit :=
  ⟨by decide, rfl, rfl⟩

/-- C9, witness: the non-positive limit zero passes through into both
URLs while the default stays positive. -/
theorem c9_limit_passthrough_witness :
    (0 : Int) < limitDefault
    ∧ search_name_url "q" 0 =
        "https://openlibrary.org/search.json?title=q&limit=" ++ toString (0 : Int)
    ∧ search_subject_url "s" 0 =
        "https://openlibrary.org/subjects/s.json?limit=" ++ toString (0 : Int) :=
  c9_limit_passthrough 0 (by decide)

/-- C10: display_subject_titles panics when the top-level works value is
not an array, and also when any element of the works array lacks a string
title, even if other works are well formed; the panic aborts the run
without the one-line error message or exit code 1. -/
theorem c10_malformed_subject_panics (api : Json)
    (h : (api.index "works").asArr = none ∨
      ∃ works, (api.index "works").asArr = some works ∧
        ∃ w ∈ works, (w.index "title").asStr = none) :
    (display_subject_titles api).isPanicked = true := by
  rcases h with h | ⟨works, hw, hbad⟩
  · unfold display_subject_titles
    rw [h]
    rfl
  · unfold display_subject_titles
    rw [hw]
    exact display_subject_go_panics works [] hbad

/-- C10, witness: a listing with one well-formed work followed by one
work without a title panics. -/
theorem c10_malformed_subject_witness :
    (display_subject_titles (Json.obj [("works", Json.arr
        [Json.obj [("title", Json.str "G")], Json.obj []])])).isPanicked = true :=
  c10_malformed_subject_panics _
    (Or.inr ⟨[Json.obj [("title", Json.str "G")], Json.obj []], rfl,
      Json.obj [], by simp, rfl⟩)

end NovelSearch
